import Mathlib

/-!
Verification of the distributed-transaction reliability layer of the
Alpes Partners microservice repository: the saga orchestrator and saga log
of the BFF service, the transactional-outbox retry pass of the
afiliados-comisiones service, and its event-consumption loop.

Each Python component is shallowly embedded as executable Lean functions:
dictionaries become association lists of strings, raised exceptions become
`Except` values, and the database session state of a repository becomes an
explicit value threaded through the operations.  Wall-clock timestamps that
the Python code stores inside payloads are omitted from payload values (they
never influence control flow); times that do influence control flow (outbox
retry eligibility) are modelled as integer epoch seconds.
-/

/-! ## Saga log (src/bff-service/src/infrastructure/saga_log.py) -/

/-- `SagaStatus` enum of saga_log.py. -/
inductive SagaStatus where
  | STARTED
  | STEP_COMPLETED
  | COMPENSATING
  | COMPLETED
  | FAILED
deriving DecidableEq, Repr

/-- A JSON-like object, restricted to the string-valued fields the
orchestrator actually reads and writes.  Models the Python `Dict[str, Any]`
payloads and service-client results. -/
abbrev Dict := List (String × String)

/-- `d[k]` lookup on an association list: first binding wins, as in a Python
dict with unique keys. -/
def Dict.lookupKey (d : Dict) (k : String) : Option String :=
  (d.find? (fun p => p.1 == k)).map (fun p => p.2)

/-- `SagaStep` dataclass of saga_log.py (the wall-clock `timestamp` field and
the unused `compensation_data` field are omitted). -/
structure SagaStep where
  step_name : String
  status : String
  payload : Dict
  error_message : Option String
deriving DecidableEq, Repr

/-- The saga row kept by `SagaLogRepository` (`SagaLogModel`): id, type, the
cached status column and the JSONB step array.  Timestamp columns are
omitted. -/
structure SagaModel where
  id : String
  saga_type : String
  status : SagaStatus
  steps : List SagaStep
deriving DecidableEq, Repr

/-- Python `s.endswith(suffix)`, computed on the character lists. -/
def strEndsWith (s suffix : String) : Bool := suffix.data.isSuffixOf s.data

/-- Python `s.startswith(p)`, computed on the character lists. -/
def strStartsWith (s p : String) : Bool := p.data.isPrefixOf s.data

/-- The status written by `SagaLogRepository.log_step` (saga_log.py lines
160-168) as a function of the appended step's name and status: `FAILED`
steps mark the saga `FAILED`; `COMPLETED` steps whose name ends in
`_final` mark it `COMPLETED`; `COMPENSATING` steps mark it `COMPENSATING`;
anything else marks it `STEP_COMPLETED`. -/
def stepStatusUpdate (step_name status : String) : SagaStatus :=
  if status == "FAILED" then SagaStatus.FAILED
  else if status == "COMPLETED" && strEndsWith step_name "_final" then SagaStatus.COMPLETED
  else if status == "COMPENSATING" then SagaStatus.COMPENSATING
  else SagaStatus.STEP_COMPLETED

/-- `SagaLogRepository.log_step`: append the step to the saga's step array and
recompute the cached status column in the same transaction. -/
def log_step (saga : SagaModel) (step_name status : String) (payload : Dict)
    (error_message : Option String) : SagaModel :=
  { saga with
    steps := saga.steps ++ [⟨step_name, status, payload, error_message⟩],
    status := stepStatusUpdate step_name status }

/-- `SagaLogRepository.log_compensation`: logs a `COMPENSATING` step named
`compensate_<step_name>` carrying the error. -/
def log_compensation (saga : SagaModel) (step_name : String) (error : String)
    (compensation_data : Dict) : SagaModel :=
  log_step saga ("compensate_" ++ step_name) "COMPENSATING" compensation_data (some error)

/-- `SagaLogRepository.start_saga`: a fresh saga row with status `STARTED` and
an empty step array. -/
def start_saga (saga_id saga_type : String) : SagaModel :=
  ⟨saga_id, saga_type, SagaStatus.STARTED, []⟩

/-- One `log_step` request: name, status, payload, optional error. -/
structure StepOp where
  name : String
  status : String
  payload : Dict
  error : Option String
deriving DecidableEq, Repr

/-- Apply a sequence of `log_step` operations to a saga. -/
def applySteps (saga : SagaModel) : List StepOp → SagaModel
  | [] => saga
  | op :: rest => applySteps (log_step saga op.name op.status op.payload op.error) rest

/-! ## Saga orchestrator (src/bff-service/src/infrastructure/orchestrators.py)

The orchestrator calls remote services through `ServiceClients`; each call
either returns a JSON dict or raises an exception whose message string the
orchestrator logs.  A single saga execution performs each call at most once,
so the network is modelled as a record of the outcome of each call. -/

/-- Outcome of each `ServiceClients` call during one saga execution:
`Except.ok` carries the adapted JSON response, `Except.error` the message of
the raised exception (timeout, non-2xx status or transport error are all
raised uniformly by `ServiceClients._make_request`). -/
structure GatewayEnv where
  create_content : Except String Dict
  create_affiliate : Except String Dict
  create_collaboration : Except String Dict
  register_metrics : Except String Dict
  delete_content : Except String Unit
  deactivate_affiliate : Except String Unit

/-- Python `str(KeyError(k))` — the message logged when a required key is
missing from a service response. -/
def keyErr (k : String) : String := "'" ++ k ++ "'"

/-- `SagaOrchestrator._step_1_create_base_content`: call the content service;
on success log a `COMPLETED` step holding the returned `content_id`, on any
exception (including a missing `content_id` key) log a `FAILED` step.
Returns the updated saga and the step result dict or error. -/
def step_1_create_base_content (env : GatewayEnv) (saga : SagaModel) :
    SagaModel × Except String Dict :=
  match env.create_content with
  | Except.error e =>
      let msg := "Failed to create base content: " ++ e
      (log_step saga "create_base_content" "FAILED" [] (some msg), Except.error msg)
  | Except.ok result =>
      match result.lookupKey "content_id" with
      | some cid =>
          (log_step saga "create_base_content" "COMPLETED"
            [("content_id", cid), ("service", "lealtad-contenido")] none, Except.ok result)
      | none =>
          let msg := "Failed to create base content: " ++ keyErr "content_id"
          (log_step saga "create_base_content" "FAILED" [] (some msg), Except.error msg)

/-- `SagaOrchestrator._step_2_create_affiliate`: reads
`step_1_data["content_id"]` to build the request (a missing key raises inside
the step's `try`), calls the affiliate service and logs the outcome. -/
def step_2_create_affiliate (env : GatewayEnv) (saga : SagaModel) (step_1_data : Dict) :
    SagaModel × Except String Dict :=
  match step_1_data.lookupKey "content_id" with
  | none =>
      let msg := "Failed to create affiliate: " ++ keyErr "content_id"
      (log_step saga "create_affiliate" "FAILED" [] (some msg), Except.error msg)
  | some _ =>
      match env.create_affiliate with
      | Except.error e =>
          let msg := "Failed to create affiliate: " ++ e
          (log_step saga "create_affiliate" "FAILED" [] (some msg), Except.error msg)
      | Except.ok result =>
          match result.lookupKey "affiliate_id" with
          | some aid =>
              (log_step saga "create_affiliate" "COMPLETED"
                [("affiliate_id", aid), ("service", "afiliados-comisiones")] none,
               Except.ok result)
          | none =>
              let msg := "Failed to create affiliate: " ++ keyErr "affiliate_id"
              (log_step saga "create_affiliate" "FAILED" [] (some msg), Except.error msg)

/-- `SagaOrchestrator._step_3_create_collaboration`. -/
def step_3_create_collaboration (env : GatewayEnv) (saga : SagaModel) (step_2_data : Dict) :
    SagaModel × Except String Dict :=
  match step_2_data.lookupKey "affiliate_id" with
  | none =>
      let msg := "Failed to create collaboration: " ++ keyErr "affiliate_id"
      (log_step saga "create_collaboration" "FAILED" [] (some msg), Except.error msg)
  | some _ =>
      match env.create_collaboration with
      | Except.error e =>
          let msg := "Failed to create collaboration: " ++ e
          (log_step saga "create_collaboration" "FAILED" [] (some msg), Except.error msg)
      | Except.ok result =>
          match result.lookupKey "collaboration_id" with
          | some colid =>
              (log_step saga "create_collaboration" "COMPLETED"
                [("collaboration_id", colid), ("service", "colaboraciones")] none,
               Except.ok result)
          | none =>
              let msg := "Failed to create collaboration: " ++ keyErr "collaboration_id"
              (log_step saga "create_collaboration" "FAILED" [] (some msg), Except.error msg)

/-- `SagaOrchestrator._step_4_register_metrics`: `metrics_id` is read with a
`"unknown"` default, so a successful call always logs `COMPLETED`.  The
boolean records whether the step succeeded (the orchestrator only logs a
warning when it did not). -/
def step_4_register_metrics (env : GatewayEnv) (saga : SagaModel) : SagaModel × Bool :=
  match env.register_metrics with
  | Except.ok result =>
      (log_step saga "register_metrics" "COMPLETED"
        [("metrics_id", (result.lookupKey "metrics_id").getD "unknown"),
         ("service", "monitoreo")] none, true)
  | Except.error e =>
      (log_step saga "register_metrics" "FAILED" []
        (some ("Failed to register metrics: " ++ e)), false)

/-- `SagaOrchestrator.compensate_saga`: logs, via `log_compensation`, a
`COMPENSATING` step named `compensate_saga_compensation_started` carrying the
error message (its wall-clock payload is omitted). -/
def compensate_saga (saga : SagaModel) (error_message : String) : SagaModel :=
  log_compensation saga "saga_compensation_started" error_message []

/-- `SagaOrchestrator._compensate_step_1`: if the step-1 result holds a
`content_id`, delete the content and log `compensate_create_content` as
`COMPLETED`; any exception logs it as `FAILED` with the error.  Without a
`content_id` nothing is logged. -/
def compensate_step_1 (env : GatewayEnv) (saga : SagaModel) (step_data : Dict) : SagaModel :=
  match step_data.lookupKey "content_id" with
  | none => saga
  | some cid =>
      match env.delete_content with
      | Except.ok _ =>
          log_step saga "compensate_create_content" "COMPLETED"
            [("compensated_content_id", cid)] none
      | Except.error e =>
          log_step saga "compensate_create_content" "FAILED" [] (some e)

/-- `SagaOrchestrator._compensate_step_2`: deactivate the affiliate and log
`compensate_create_affiliate`, analogously to `compensate_step_1`. -/
def compensate_step_2 (env : GatewayEnv) (saga : SagaModel) (step_data : Dict) : SagaModel :=
  match step_data.lookupKey "affiliate_id" with
  | none => saga
  | some aid =>
      match env.deactivate_affiliate with
      | Except.ok _ =>
          log_step saga "compensate_create_affiliate" "COMPLETED"
            [("compensated_affiliate_id", aid)] none
      | Except.error e =>
          log_step saga "compensate_create_affiliate" "FAILED" [] (some e)

/-- `SagaOrchestrator.execute_complete_affiliate_registration`: run the four
steps in order; a failure of step 1, 2 or 3 runs the compensations of the
previously completed steps in reverse order and then `compensate_saga`, and
returns `false`; a failure of the non-critical step 4 is only logged; success
appends the terminal `saga_completed_final` step (its wall-clock
`completed_at` payload field omitted) and returns `true`.  The lookups before
step 4 model the dictionary accesses at lines 60-64 of orchestrators.py,
whose failure would be caught by the outer `except` and trigger
`compensate_saga`. -/
def execute_complete_affiliate_registration (env : GatewayEnv) (saga : SagaModel) :
    SagaModel × Bool :=
  let r1 := step_1_create_base_content env saga
  match r1.2 with
  | Except.error e => (compensate_saga r1.1 e, false)
  | Except.ok d1 =>
      let r2 := step_2_create_affiliate env r1.1 d1
      match r2.2 with
      | Except.error e => (compensate_saga (compensate_step_1 env r2.1 d1) e, false)
      | Except.ok d2 =>
          let r3 := step_3_create_collaboration env r2.1 d2
          match r3.2 with
          | Except.error e =>
              (compensate_saga
                (compensate_step_1 env (compensate_step_2 env r3.1 d2) d1) e, false)
          | Except.ok d3 =>
              match d1.lookupKey "content_id", d2.lookupKey "affiliate_id",
                    d3.lookupKey "collaboration_id" with
              | some cid, some aid, some colid =>
                  let r4 := step_4_register_metrics env r3.1
                  (log_step r4.1 "saga_completed_final" "COMPLETED"
                    [("content_id", cid), ("affiliate_id", aid),
                     ("collaboration_id", colid)] none, true)
              | _, _, _ =>
                  (compensate_saga r3.1 ("Critical error: " ++ keyErr "combined_data"), false)

/-- The observable (name, status) trace of a saga's step log. -/
def stepTrace (saga : SagaModel) : List (String × String) :=
  saga.steps.map (fun s => (s.step_name, s.status))

/-- Step 1 succeeds: the content call returned a dict carrying `content_id`. -/
def step1Ok (env : GatewayEnv) : Bool :=
  match env.create_content with
  | Except.ok d => (d.lookupKey "content_id").isSome
  | Except.error _ => false

/-- Step 2 succeeds: the affiliate call returned a dict carrying `affiliate_id`. -/
def step2Ok (env : GatewayEnv) : Bool :=
  match env.create_affiliate with
  | Except.ok d => (d.lookupKey "affiliate_id").isSome
  | Except.error _ => false

/-- Step 3 succeeds: the collaboration call returned a dict carrying
`collaboration_id`. -/
def step3Ok (env : GatewayEnv) : Bool :=
  match env.create_collaboration with
  | Except.ok d => (d.lookupKey "collaboration_id").isSome
  | Except.error _ => false

/-- Step 4 succeeds: the metrics call did not raise. -/
def step4Ok (env : GatewayEnv) : Bool :=
  match env.register_metrics with
  | Except.ok _ => true
  | Except.error _ => false

/-- Status logged for a compensation as a function of the compensating
gateway call's outcome. -/
def compStatus : Except String Unit → String
  | Except.ok _ => "COMPLETED"
  | Except.error _ => "FAILED"

/-! ## Transactional outbox retry pass
(src/afiliados-comisiones-servicio/src/infrastructure/messaging/outbox_service.py)

`OutboxService.retry_failed_events` runs inside the dispatcher loop.  Rows
of the `outbox_events` table are modelled as records; `datetime.utcnow()` at
the moment of the pass becomes an explicit `now` in epoch seconds. -/

/-- An `outbox_events` row (db/write/models.py `OutboxEvent`): only the
columns the retry pass reads or writes.  `created_at` is in epoch seconds. -/
structure OutboxRow where
  id : Nat
  status : String
  retry_count : Nat
  created_at : Int
  error_message : Option String
deriving DecidableEq, Repr

/-- The SQL filter of `retry_failed_events`: status `failed`, `retry_count`
below the limit, and created within the last day
(`created_at > utcnow() - timedelta(days=1)`). -/
def retryQueryFilter (now : Int) (max_retries : Nat) (e : OutboxRow) : Bool :=
  e.status == "failed" && e.retry_count < max_retries && now - 86400 < e.created_at

/-- Insert preserving ascending `created_at` order (the `ORDER BY created_at`
of the query). -/
def insertByCreated (e : OutboxRow) : List OutboxRow → List OutboxRow
  | [] => [e]
  | x :: xs =>
      if e.created_at ≤ x.created_at then e :: x :: xs else x :: insertByCreated e xs

/-- Sort rows by ascending `created_at`. -/
def sortByCreated : List OutboxRow → List OutboxRow
  | [] => []
  | x :: xs => insertByCreated x (sortByCreated xs)

/-- The row set the retry pass operates on: filtered, ordered by
`created_at`, limited to 50 rows. -/
def retrySelect (rows : List OutboxRow) (now : Int) (max_retries : Nat) : List OutboxRow :=
  (sortByCreated (rows.filter (retryQueryFilter now max_retries))).take 50

/-- The exponential backoff delay `min(300, 2 ** retry_count)` seconds. -/
def retryDelay (e : OutboxRow) : Int := min 300 ((2 : Int) ^ e.retry_count)

/-- Whether the selected row's next eligible retry time has elapsed:
`created_at + timedelta(seconds=delay) <= utcnow()`. -/
def retryDue (now : Int) (e : OutboxRow) : Bool := e.created_at + retryDelay e ≤ now

/-- The mutation applied to each selected row: if due, reset to `pending`
and clear the error message; otherwise leave it untouched. -/
def retryUpdate (now : Int) (e : OutboxRow) : OutboxRow :=
  if retryDue now e then { e with status := "pending", error_message := none } else e

/-- `OutboxService.retry_failed_events(max_retries)`: the store after one
retry pass at time `now`.  Exactly the selected rows are updated (the ORM
mutates the fetched row objects and commits). -/
def retry_failed_events (rows : List OutboxRow) (now : Int) (max_retries : Nat) :
    List OutboxRow :=
  let selected := retrySelect rows now max_retries
  rows.map (fun e => if e ∈ selected then retryUpdate now e else e)

/-- The store after a sequence of retry passes at the given times. -/
def retryPasses (rows : List OutboxRow) (max_retries : Nat) (times : List Int) :
    List OutboxRow :=
  times.foldl (fun rs t => retry_failed_events rs t max_retries) rows

/-! ## Event consumer
(src/afiliados-comisiones-servicio/src/infrastructure/messaging/consumidores.py
 and event_mapper.py) -/

/-- The Python exception classes `EventConsumerService._is_recoverable_error`
distinguishes. -/
inductive PyError where
  | connectionError
  | timeoutError
  | pulsarConnectError
  | pulsarTimeoutError
  | valueError
  | keyError
  | attributeError
  | other (name : String)
deriving DecidableEq, Repr

/-- `EventConsumerService._is_recoverable_error`: connectivity and timeout
errors are recoverable, validation/lookup errors are not, anything else
defaults to recoverable. -/
def is_recoverable_error : PyError → Bool
  | PyError.connectionError => true
  | PyError.timeoutError => true
  | PyError.pulsarConnectError => true
  | PyError.pulsarTimeoutError => true
  | PyError.valueError => false
  | PyError.keyError => false
  | PyError.attributeError => false
  | PyError.other _ => true

/-- The externally observable actions `_process_message` performs on a
message, in order. -/
inductive ConsumerEffect where
  | invokedHandler
  | acked
  | nacked
deriving DecidableEq, Repr

/-- `EventConsumerService._process_message` for one message: `mapped` is the
mapper's result on the message payload and `handler` the domain handler's
outcome on the mapped event.  A `none` mapping is acknowledged immediately
without invoking the handler; a handler exception is classified and the
message nacked only when the error is recoverable. -/
def process_message {α : Type} (mapped : Option α)
    (handler : α → Except PyError Unit) : List ConsumerEffect :=
  match mapped with
  | none => [ConsumerEffect.acked]
  | some ev =>
      ConsumerEffect.invokedHandler ::
        (match handler ev with
         | Except.ok _ => [ConsumerEffect.acked]
         | Except.error e =>
             if is_recoverable_error e then [ConsumerEffect.nacked]
             else [ConsumerEffect.acked])

/-- The typed affiliate domain events `EventMapper.map_affiliate_event` can
produce.  Field values are irrelevant to the consumption control flow and
are omitted. -/
inductive AffiliateDomainEvent where
  | afiliadoCreado
  | afiliadoActivado
  | afiliadoDesactivado
  | tasaComisionActualizada
deriving DecidableEq, Repr

/-- `pulsar_data.get('event_type', pulsar_data.get('type', ''))`. -/
def pulsarEventType (payload : Dict) : String :=
  match payload.lookupKey "event_type" with
  | some v => v
  | none =>
      match payload.lookupKey "type" with
      | some v => v
      | none => ""

/-- `EventMapper.map_affiliate_event`: dispatch on the event-type string; a
known type constructs the typed event from `pulsar_data['affiliate_id']`
(a missing key raises `KeyError`, which the surrounding `except` turns into
`None`); an unknown type returns `None` directly.  Parsing of the UUID and
numeric field values is abstracted to key presence — any parse failure also
lands in the `except None` path. -/
def map_affiliate_event (payload : Dict) : Option AffiliateDomainEvent :=
  let et := pulsarEventType payload
  if et == "AfiliadoCreado" || et == "affiliate_created" then
    (payload.lookupKey "affiliate_id").map (fun _ => AffiliateDomainEvent.afiliadoCreado)
  else if et == "AfiliadoActivado" || et == "affiliate_activated" then
    (payload.lookupKey "affiliate_id").map (fun _ => AffiliateDomainEvent.afiliadoActivado)
  else if et == "AfiliadoDesactivado" || et == "affiliate_deactivated" then
    (payload.lookupKey "affiliate_id").map (fun _ => AffiliateDomainEvent.afiliadoDesactivado)
  else if et == "TasaComisionActualizada" || et == "commission_rate_updated" then
    (payload.lookupKey "affiliate_id").map
      (fun _ => AffiliateDomainEvent.tasaComisionActualizada)
  else
    none

/-! ## Saga read path (saga_log.py `get_saga` and routes.py `get_saga_status`) -/

/-- What the database query inside `SagaLogRepository.get_saga` produced:
either a raised exception's message, or the row (or its absence). -/
abbrev SagaQueryResult := Except String (Option SagaModel)

/-- `SagaLogRepository.get_saga`: returns the reconstructed saga when the
query found the row, `None` when no row matched, and — because the
catch-all `except` returns `None` — also `None` when the query (or the step
reconstruction) raised. -/
def get_saga (queryResult : SagaQueryResult) : Option SagaModel :=
  match queryResult with
  | Except.error _ => none
  | Except.ok r => r

/-- HTTP status code produced by the `GET /sagas/{id}/status` endpoint
(routes.py `get_saga_status`): 404 whenever `get_saga` returned `None`,
200 otherwise. -/
def get_saga_status_code (queryResult : SagaQueryResult) : Nat :=
  match get_saga queryResult with
  | none => 404
  | some _ => 200

/-! ## Concrete gateway environments used as witnesses and counterexamples -/

/-- All four service calls succeed. -/
def envAllOk : GatewayEnv :=
  ⟨Except.ok [("content_id", "c1")], Except.ok [("affiliate_id", "a1")],
   Except.ok [("collaboration_id", "l1")], Except.ok [("metrics_id", "m1")],
   Except.ok (), Except.ok ()⟩

/-- The content creation call fails. -/
def envStep1Fails : GatewayEnv :=
  ⟨Except.error "Timeout calling lealtad-contenido", Except.ok [("affiliate_id", "a1")],
   Except.ok [("collaboration_id", "l1")], Except.ok [("metrics_id", "m1")],
   Except.ok (), Except.ok ()⟩

/-- The affiliate creation call fails. -/
def envStep2Fails : GatewayEnv :=
  ⟨Except.ok [("content_id", "c1")], Except.error "afiliados-comisiones returned 500",
   Except.ok [("collaboration_id", "l1")], Except.ok [("metrics_id", "m1")],
   Except.ok (), Except.ok ()⟩

/-- The collaboration creation call fails with an HTTP 500; compensations
succeed. -/
def envStep3Fails : GatewayEnv :=
  ⟨Except.ok [("content_id", "c1")], Except.ok [("affiliate_id", "a1")],
   Except.error "colaboraciones returned 500: internal error",
   Except.ok [("metrics_id", "m1")], Except.ok (), Except.ok ()⟩

/-- Only the non-critical metrics registration fails. -/
def envStep4Fails : GatewayEnv :=
  ⟨Except.ok [("content_id", "c1")], Except.ok [("affiliate_id", "a1")],
   Except.ok [("collaboration_id", "l1")], Except.error "monitoreo unavailable",
   Except.ok (), Except.ok ()⟩

/-- A failed outbox event created outside the one-day retry window. -/
def staleRow : OutboxRow := ⟨1, "failed", 0, 0, some "publish error"⟩

/-- A failed outbox event inside the retry window whose backoff has elapsed. -/
def freshRow : OutboxRow := ⟨1, "failed", 2, 100, some "publish error"⟩

/-- A failed outbox event that has exhausted its retries
(`retry_count = max_retries = 5`). -/
def exhaustedRow : OutboxRow := ⟨2, "failed", 5, 100, some "publish error"⟩

/-! ## Helper lemmas: execution traces of the CompleteAffiliateRegistration
saga, by which step (if any) fails first -/

lemma applySteps_append (saga : SagaModel) (ops : List StepOp) (op : StepOp) :
    applySteps saga (ops ++ [op]) =
      log_step (applySteps saga ops) op.name op.status op.payload op.error := by
  induction ops generalizing saga with
  | nil => rfl
  | cons o rest ih => simp [applySteps, ih]

lemma saga_final_endsWith : strEndsWith "saga_completed_final" "_final" = true := by decide

lemma exec_fail1_trace (env : GatewayEnv) (sid ty : String)
    (h1 : step1Ok env = false) :
    stepTrace (execute_complete_affiliate_registration env (start_saga sid ty)).1 =
      [("create_base_content", "FAILED"),
       ("compensate_saga_compensation_started", "COMPENSATING")] ∧
    (execute_complete_affiliate_registration env (start_saga sid ty)).1.status =
      SagaStatus.COMPENSATING ∧
    (execute_complete_affiliate_registration env (start_saga sid ty)).2 = false := by
  cases hc1 : env.create_content with
  | error e =>
    simp [execute_complete_affiliate_registration, step_1_create_base_content,
          compensate_saga, log_compensation, log_step, stepStatusUpdate, stepTrace,
          start_saga, hc1]
  | ok d1 =>
    simp only [step1Ok, hc1] at h1
    cases hcid : d1.lookupKey "content_id" with
    | some cid => rw [hcid] at h1; simp at h1
    | none =>
      simp [execute_complete_affiliate_registration, step_1_create_base_content,
            compensate_saga, log_compensation, log_step, stepStatusUpdate, stepTrace,
            start_saga, hc1, hcid]

lemma exec_fail2_trace (env : GatewayEnv) (sid ty : String)
    (h1 : step1Ok env = true) (h2 : step2Ok env = false) :
    stepTrace (execute_complete_affiliate_registration env (start_saga sid ty)).1 =
      [("create_base_content", "COMPLETED"), ("create_affiliate", "FAILED"),
       ("compensate_create_content", compStatus env.delete_content),
       ("compensate_saga_compensation_started", "COMPENSATING")] ∧
    (execute_complete_affiliate_registration env (start_saga sid ty)).1.status =
      SagaStatus.COMPENSATING ∧
    (execute_complete_affiliate_registration env (start_saga sid ty)).2 = false := by
  cases hc1 : env.create_content with
  | error e => simp [step1Ok, hc1] at h1
  | ok d1 =>
    simp only [step1Ok, hc1] at h1
    obtain ⟨cid, hcid⟩ := Option.isSome_iff_exists.mp h1
    cases hc2 : env.create_affiliate with
    | error e =>
      cases hdel : env.delete_content <;>
        simp [execute_complete_affiliate_registration, step_1_create_base_content,
              step_2_create_affiliate, compensate_step_1, compensate_saga,
              log_compensation, log_step, stepStatusUpdate, stepTrace, compStatus,
              start_saga, hc1, hcid, hc2, hdel]
    | ok d2 =>
      simp only [step2Ok, hc2] at h2
      cases haid : d2.lookupKey "affiliate_id" with
      | some aid => rw [haid] at h2; simp at h2
      | none =>
        cases hdel : env.delete_content <;>
          simp [execute_complete_affiliate_registration, step_1_create_base_content,
                step_2_create_affiliate, compensate_step_1, compensate_saga,
                log_compensation, log_step, stepStatusUpdate, stepTrace, compStatus,
                start_saga, hc1, hcid, hc2, haid, hdel]

lemma exec_fail3_trace (env : GatewayEnv) (sid ty : String)
    (h1 : step1Ok env = true) (h2 : step2Ok env = true) (h3 : step3Ok env = false) :
    stepTrace (execute_complete_affiliate_registration env (start_saga sid ty)).1 =
      [("create_base_content", "COMPLETED"), ("create_affiliate", "COMPLETED"),
       ("create_collaboration", "FAILED"),
       ("compensate_create_affiliate", compStatus env.deactivate_affiliate),
       ("compensate_create_content", compStatus env.delete_content),
       ("compensate_saga_compensation_started", "COMPENSATING")] ∧
    (execute_complete_affiliate_registration env (start_saga sid ty)).1.status =
      SagaStatus.COMPENSATING ∧
    (execute_complete_affiliate_registration env (start_saga sid ty)).2 = false := by
  cases hc1 : env.create_content with
  | error e => simp [step1Ok, hc1] at h1
  | ok d1 =>
    simp only [step1Ok, hc1] at h1
    obtain ⟨cid, hcid⟩ := Option.isSome_iff_exists.mp h1
    cases hc2 : env.create_affiliate with
    | error e => simp [step2Ok, hc2] at h2
    | ok d2 =>
      simp only [step2Ok, hc2] at h2
      obtain ⟨aid, haid⟩ := Option.isSome_iff_exists.mp h2
      cases hc3 : env.create_collaboration with
      | error e =>
        cases hdel : env.delete_content <;> cases hdea : env.deactivate_affiliate <;>
          simp [execute_complete_affiliate_registration, step_1_create_base_content,
                step_2_create_affiliate, step_3_create_collaboration,
                compensate_step_1, compensate_step_2, compensate_saga, log_compensation,
                log_step, stepStatusUpdate, stepTrace, compStatus, start_saga,
                hc1, hcid, hc2, haid, hc3, hdel, hdea]
      | ok d3 =>
        simp only [step3Ok, hc3] at h3
        cases hcol : d3.lookupKey "collaboration_id" with
        | some colid => rw [hcol] at h3; simp at h3
        | none =>
          cases hdel : env.delete_content <;> cases hdea : env.deactivate_affiliate <;>
            simp [execute_complete_affiliate_registration, step_1_create_base_content,
                  step_2_create_affiliate, step_3_create_collaboration,
                  compensate_step_1, compensate_step_2, compensate_saga, log_compensation,
                  log_step, stepStatusUpdate, stepTrace, compStatus, start_saga,
                  hc1, hcid, hc2, haid, hc3, hcol, hdel, hdea]

lemma exec_ok_trace (env : GatewayEnv) (sid ty : String)
    (h1 : step1Ok env = true) (h2 : step2Ok env = true) (h3 : step3Ok env = true)
    (h4 : step4Ok env = true) :
    stepTrace (execute_complete_affiliate_registration env (start_saga sid ty)).1 =
      [("create_base_content", "COMPLETED"), ("create_affiliate", "COMPLETED"),
       ("create_collaboration", "COMPLETED"), ("register_metrics", "COMPLETED"),
       ("saga_completed_final", "COMPLETED")] ∧
    (execute_complete_affiliate_registration env (start_saga sid ty)).1.status =
      SagaStatus.COMPLETED ∧
    (execute_complete_affiliate_registration env (start_saga sid ty)).2 = true := by
  cases hc1 : env.create_content with
  | error e => simp [step1Ok, hc1] at h1
  | ok d1 =>
    simp only [step1Ok, hc1] at h1
    obtain ⟨cid, hcid⟩ := Option.isSome_iff_exists.mp h1
    cases hc2 : env.create_affiliate with
    | error e => simp [step2Ok, hc2] at h2
    | ok d2 =>
      simp only [step2Ok, hc2] at h2
      obtain ⟨aid, haid⟩ := Option.isSome_iff_exists.mp h2
      cases hc3 : env.create_collaboration with
      | error e => simp [step3Ok, hc3] at h3
      | ok d3 =>
        simp only [step3Ok, hc3] at h3
        obtain ⟨colid, hcol⟩ := Option.isSome_iff_exists.mp h3
        cases hc4 : env.register_metrics with
        | error e => simp [step4Ok, hc4] at h4
        | ok d4 =>
          simp [execute_complete_affiliate_registration, step_1_create_base_content,
                step_2_create_affiliate, step_3_create_collaboration,
                step_4_register_metrics, log_step, stepStatusUpdate, stepTrace,
                start_saga, saga_final_endsWith, hc1, hcid, hc2, haid, hc3, hcol, hc4]

lemma exec_fail4_trace (env : GatewayEnv) (sid ty : String)
    (h1 : step1Ok env = true) (h2 : step2Ok env = true) (h3 : step3Ok env = true)
    (h4 : step4Ok env = false) :
    stepTrace (execute_complete_affiliate_registration env (start_saga sid ty)).1 =
      [("create_base_content", "COMPLETED"), ("create_affiliate", "COMPLETED"),
       ("create_collaboration", "COMPLETED"), ("register_metrics", "FAILED"),
       ("saga_completed_final", "COMPLETED")] ∧
    (execute_complete_affiliate_registration env (start_saga sid ty)).1.status =
      SagaStatus.COMPLETED ∧
    (execute_complete_affiliate_registration env (start_saga sid ty)).2 = true := by
  cases hc1 : env.create_content with
  | error e => simp [step1Ok, hc1] at h1
  | ok d1 =>
    simp only [step1Ok, hc1] at h1
    obtain ⟨cid, hcid⟩ := Option.isSome_iff_exists.mp h1
    cases hc2 : env.create_affiliate with
    | error e => simp [step2Ok, hc2] at h2
    | ok d2 =>
      simp only [step2Ok, hc2] at h2
      obtain ⟨aid, haid⟩ := Option.isSome_iff_exists.mp h2
      cases hc3 : env.create_collaboration with
      | error e => simp [step3Ok, hc3] at h3
      | ok d3 =>
        simp only [step3Ok, hc3] at h3
        obtain ⟨colid, hcol⟩ := Option.isSome_iff_exists.mp h3
        cases hc4 : env.register_metrics with
        | ok d4 => simp [step4Ok, hc4] at h4
        | error e =>
          simp [execute_complete_affiliate_registration, step_1_create_base_content,
                step_2_create_affiliate, step_3_create_collaboration,
                step_4_register_metrics, log_step, stepStatusUpdate, stepTrace,
                start_saga, saga_final_endsWith, hc1, hcid, hc2, haid, hc3, hcol, hc4]

/-! ## Helper lemmas: outbox retry pass -/

lemma mem_insertByCreated (e x : OutboxRow) (l : List OutboxRow) :
    x ∈ insertByCreated e l ↔ x = e ∨ x ∈ l := by
  induction l with
  | nil => simp [insertByCreated]
  | cons y ys ih =>
    by_cases h : e.created_at ≤ y.created_at
    · simp [insertByCreated, h]
    · simp [insertByCreated, h, ih]
      tauto

lemma mem_sortByCreated (x : OutboxRow) (l : List OutboxRow) :
    x ∈ sortByCreated l ↔ x ∈ l := by
  induction l with
  | nil => simp [sortByCreated]
  | cons y ys ih => simp [sortByCreated, mem_insertByCreated, ih]

lemma retrySelect_subset_filter (rows : List OutboxRow) (now : Int) (max_retries : Nat)
    (e : OutboxRow) (h : e ∈ retrySelect rows now max_retries) :
    e ∈ rows ∧ retryQueryFilter now max_retries e = true := by
  have hsort : e ∈ sortByCreated (rows.filter (retryQueryFilter now max_retries)) :=
    (List.take_sublist 50 _).subset h
  have hfil := (mem_sortByCreated e _).mp hsort
  exact List.mem_filter.mp hfil

lemma retry_pass_keeps_exhausted (rows : List OutboxRow) (now : Int) (max_retries : Nat)
    (i : Nat) (e : OutboxRow) (he : rows[i]? = some e)
    (hrc : max_retries ≤ e.retry_count) :
    (retry_failed_events rows now max_retries)[i]? = some e := by
  have hnot : e ∉ retrySelect rows now max_retries := by
    intro hmem
    have hq := (retrySelect_subset_filter rows now max_retries e hmem).2
    simp only [retryQueryFilter, Bool.and_eq_true, beq_iff_eq, decide_eq_true_eq] at hq
    omega
  unfold retry_failed_events
  rw [List.getElem?_map, he]
  simp [if_neg hnot]

/-! ## Claim theorems -/

/-- Claim C1, counterexample.  The claim states that a saga holding a
`FAILED` step with no subsequent terminal (final-completed) step has status
`COMPENSATING` or `FAILED`, and that the CompleteAffiliateRegistration saga
in which `create_collaboration` fails ends with status `FAILED`.  Both parts
fail on the code: in the concrete failing-collaboration run the final status
is `COMPENSATING` (the last log entry is the `COMPENSATING` marker step),
not `FAILED`; and a log holding a `FAILED` step followed by a `COMPLETED`
compensation entry has status `STEP_COMPLETED`, which is neither
`COMPENSATING` nor `FAILED`, because `log_step` derives the status from the
last appended step only. -/
theorem c1_saga_status_fold_counterexample :
    (execute_complete_affiliate_registration envStep3Fails
        (start_saga "saga-1" "CompleteAffiliateRegistration")).1.status ≠ SagaStatus.FAILED ∧
    ((execute_complete_affiliate_registration envStep3Fails
        (start_saga "saga-1" "CompleteAffiliateRegistration")).1.steps.any
          (fun s => s.status == "FAILED")) = true ∧
    ((execute_complete_affiliate_registration envStep3Fails
        (start_saga "saga-1" "CompleteAffiliateRegistration")).1.steps.any
          (fun s => s.status == "COMPLETED" && strEndsWith s.step_name "_final")) = false ∧
    (applySteps (start_saga "saga-1" "t")
        [⟨"create_collaboration", "FAILED", [], some "err"⟩,
         ⟨"compensate_create_affiliate", "COMPLETED", [], none⟩]).status =
      SagaStatus.STEP_COMPLETED ∧
    ((applySteps (start_saga "saga-1" "t")
        [⟨"create_collaboration", "FAILED", [], some "err"⟩,
         ⟨"compensate_create_affiliate", "COMPLETED", [], none⟩]).steps.any
          (fun s => s.status == "FAILED")) = true ∧
    ((applySteps (start_saga "saga-1" "t")
        [⟨"create_collaboration", "FAILED", [], some "err"⟩,
         ⟨"compensate_create_affiliate", "COMPLETED", [], none⟩]).steps.any
          (fun s => s.status == "COMPLETED" && strEndsWith s.step_name "_final")) = false := by
  decide

/-- Claim C1, amended: after any non-empty sequence of `log_step`
operations, the saga's stored status is a function of the last appended step
alone — `FAILED` steps give `FAILED`, `COMPLETED` steps named `*_final` give
`COMPLETED`, `COMPENSATING` steps give `COMPENSATING`, anything else gives
`STEP_COMPLETED` — and in every CompleteAffiliateRegistration run where
`create_collaboration` is the first failing step the final stored status is
`COMPENSATING` (the log then contains a `FAILED` step). -/
theorem c1_saga_status_from_last_step :
    (∀ (saga : SagaModel) (ops : List StepOp) (op : StepOp),
      (applySteps saga (ops ++ [op])).status = stepStatusUpdate op.name op.status) ∧
    (∀ (env : GatewayEnv) (sid ty : String),
      step1Ok env = true → step2Ok env = true → step3Ok env = false →
      (execute_complete_affiliate_registration env (start_saga sid ty)).1.status =
        SagaStatus.COMPENSATING ∧
      ("create_collaboration", "FAILED") ∈
        stepTrace (execute_complete_affiliate_registration env (start_saga sid ty)).1) := by
  constructor
  · intro saga ops op
    rw [applySteps_append]
    rfl
  · intro env sid ty h1 h2 h3
    obtain ⟨htr, hst, _⟩ := exec_fail3_trace env sid ty h1 h2 h3
    refine ⟨hst, ?_⟩
    rw [htr]
    simp

/-- Witness for `c1_saga_status_from_last_step` at concrete inputs. -/
theorem c1_saga_status_from_last_step_witness :
    (applySteps (start_saga "s" "t")
        ([⟨"a", "COMPLETED", [], none⟩] ++ [⟨"b", "FAILED", [], some "e"⟩])).status =
      stepStatusUpdate "b" "FAILED" ∧
    step1Ok envStep3Fails = true ∧ step2Ok envStep3Fails = true ∧
    step3Ok envStep3Fails = false ∧
    (execute_complete_affiliate_registration envStep3Fails
        (start_saga "s" "CompleteAffiliateRegistration")).1.status =
      SagaStatus.COMPENSATING ∧
    ("create_collaboration", "FAILED") ∈
      stepTrace (execute_complete_affiliate_registration envStep3Fails
        (start_saga "s" "CompleteAffiliateRegistration")).1 := by
  have h1 : step1Ok envStep3Fails = true := by decide
  have h2 : step2Ok envStep3Fails = true := by decide
  have h3 : step3Ok envStep3Fails = false := by decide
  exact ⟨c1_saga_status_from_last_step.1 _ _ _, h1, h2, h3,
         (c1_saga_status_from_last_step.2 _ "s" "CompleteAffiliateRegistration" h1 h2 h3).1,
         (c1_saga_status_from_last_step.2 _ "s" "CompleteAffiliateRegistration" h1 h2 h3).2⟩

/-- Claim C2, counterexample.  The claim states that when step k = 3 is the
first failing step the log consists of the entries for steps 1..3 followed
by exactly k - 1 = 2 compensation entries — five entries in total.  In the
concrete run the log has six entries: the orchestrator additionally appends
the `compensate_saga_compensation_started` marker after the two per-step
compensations. -/
theorem c2_compensation_count_counterexample :
    stepTrace (execute_complete_affiliate_registration envStep3Fails
        (start_saga "saga-1" "CompleteAffiliateRegistration")).1 =
      [("create_base_content", "COMPLETED"), ("create_affiliate", "COMPLETED"),
       ("create_collaboration", "FAILED"),
       ("compensate_create_affiliate", "COMPLETED"),
       ("compensate_create_content", "COMPLETED"),
       ("compensate_saga_compensation_started", "COMPENSATING")] ∧
    (stepTrace (execute_complete_affiliate_registration envStep3Fails
        (start_saga "saga-1" "CompleteAffiliateRegistration")).1).length ≠ 5 := by
  decide

/-- Claim C2, amended: when critical step k (k = 1, 2, 3) is the first step
to fail, the log consists of the entries for steps 1..k (the k-th `FAILED`,
the earlier ones `COMPLETED`), followed by exactly k - 1 compensation
entries, one per previously completed step in strictly reverse order of the
original steps, followed by one final `compensate_saga_compensation_started`
marker entry with status `COMPENSATING`; the saga's status is not
`COMPLETED`. -/
theorem c2_failed_step_compensation_log :
    (∀ (env : GatewayEnv) (sid ty : String), step1Ok env = false →
      stepTrace (execute_complete_affiliate_registration env (start_saga sid ty)).1 =
        [("create_base_content", "FAILED"),
         ("compensate_saga_compensation_started", "COMPENSATING")] ∧
      (execute_complete_affiliate_registration env (start_saga sid ty)).1.status ≠
        SagaStatus.COMPLETED) ∧
    (∀ (env : GatewayEnv) (sid ty : String),
      step1Ok env = true → step2Ok env = false →
      stepTrace (execute_complete_affiliate_registration env (start_saga sid ty)).1 =
        [("create_base_content", "COMPLETED"), ("create_affiliate", "FAILED"),
         ("compensate_create_content", compStatus env.delete_content),
         ("compensate_saga_compensation_started", "COMPENSATING")] ∧
      (execute_complete_affiliate_registration env (start_saga sid ty)).1.status ≠
        SagaStatus.COMPLETED) ∧
    (∀ (env : GatewayEnv) (sid ty : String),
      step1Ok env = true → step2Ok env = true → step3Ok env = false →
      stepTrace (execute_complete_affiliate_registration env (start_saga sid ty)).1 =
        [("create_base_content", "COMPLETED"), ("create_affiliate", "COMPLETED"),
         ("create_collaboration", "FAILED"),
         ("compensate_create_affiliate", compStatus env.deactivate_affiliate),
         ("compensate_create_content", compStatus env.delete_content),
         ("compensate_saga_compensation_started", "COMPENSATING")] ∧
      (execute_complete_affiliate_registration env (start_saga sid ty)).1.status ≠
        SagaStatus.COMPLETED) := by
  refine ⟨fun env sid ty h1 => ?_, fun env sid ty h1 h2 => ?_, fun env sid ty h1 h2 h3 => ?_⟩
  · obtain ⟨htr, hst, _⟩ := exec_fail1_trace env sid ty h1
    exact ⟨htr, by rw [hst]; decide⟩
  · obtain ⟨htr, hst, _⟩ := exec_fail2_trace env sid ty h1 h2
    exact ⟨htr, by rw [hst]; decide⟩
  · obtain ⟨htr, hst, _⟩ := exec_fail3_trace env sid ty h1 h2 h3
    exact ⟨htr, by rw [hst]; decide⟩

/-- Witness for `c2_failed_step_compensation_log` at concrete environments
for k = 1, 2, 3. -/
theorem c2_failed_step_compensation_log_witness :
    step1Ok envStep1Fails = false ∧
    stepTrace (execute_complete_affiliate_registration envStep1Fails
        (start_saga "s1" "CompleteAffiliateRegistration")).1 =
      [("create_base_content", "FAILED"),
       ("compensate_saga_compensation_started", "COMPENSATING")] ∧
    step1Ok envStep2Fails = true ∧ step2Ok envStep2Fails = false ∧
    stepTrace (execute_complete_affiliate_registration envStep2Fails
        (start_saga "s2" "CompleteAffiliateRegistration")).1 =
      [("create_base_content", "COMPLETED"), ("create_affiliate", "FAILED"),
       ("compensate_create_content", compStatus envStep2Fails.delete_content),
       ("compensate_saga_compensation_started", "COMPENSATING")] ∧
    step1Ok envStep3Fails = true ∧ step2Ok envStep3Fails = true ∧
    step3Ok envStep3Fails = false ∧
    (execute_complete_affiliate_registration envStep3Fails
        (start_saga "s3" "CompleteAffiliateRegistration")).1.status ≠
      SagaStatus.COMPLETED := by
  have ha : step1Ok envStep1Fails = false := by decide
  have hb1 : step1Ok envStep2Fails = true := by decide
  have hb2 : step2Ok envStep2Fails = false := by decide
  have hc1 : step1Ok envStep3Fails = true := by decide
  have hc2 : step2Ok envStep3Fails = true := by decide
  have hc3 : step3Ok envStep3Fails = false := by decide
  exact ⟨ha, (c2_failed_step_compensation_log.1 _ "s1" _ ha).1,
         hb1, hb2, (c2_failed_step_compensation_log.2.1 _ "s2" _ hb1 hb2).1,
         hc1, hc2, hc3,
         (c2_failed_step_compensation_log.2.2 _ "s3" "CompleteAffiliateRegistration"
           hc1 hc2 hc3).2⟩

/-- Claim C3: when all four steps of the CompleteAffiliateRegistration saga
succeed, the log contains exactly the four `COMPLETED` steps followed by the
single `saga_completed_final` entry, and the saga's stored status is
`COMPLETED`. -/
theorem c3_all_steps_success_log (env : GatewayEnv) (sid ty : String)
    (h1 : step1Ok env = true) (h2 : step2Ok env = true) (h3 : step3Ok env = true)
    (h4 : step4Ok env = true) :
    stepTrace (execute_complete_affiliate_registration env (start_saga sid ty)).1 =
      [("create_base_content", "COMPLETED"), ("create_affiliate", "COMPLETED"),
       ("create_collaboration", "COMPLETED"), ("register_metrics", "COMPLETED"),
       ("saga_completed_final", "COMPLETED")] ∧
    (execute_complete_affiliate_registration env (start_saga sid ty)).1.status =
      SagaStatus.COMPLETED := by
  obtain ⟨htr, hst, _⟩ := exec_ok_trace env sid ty h1 h2 h3 h4
  exact ⟨htr, hst⟩

/-- Witness for `c3_all_steps_success_log` at the all-success environment. -/
theorem c3_all_steps_success_log_witness :
    step1Ok envAllOk = true ∧ step2Ok envAllOk = true ∧ step3Ok envAllOk = true ∧
    step4Ok envAllOk = true ∧
    (execute_complete_affiliate_registration envAllOk
        (start_saga "s" "CompleteAffiliateRegistration")).1.status =
      SagaStatus.COMPLETED := by
  have h1 : step1Ok envAllOk = true := by decide
  have h2 : step2Ok envAllOk = true := by decide
  have h3 : step3Ok envAllOk = true := by decide
  have h4 : step4Ok envAllOk = true := by decide
  exact ⟨h1, h2, h3, h4,
         (c3_all_steps_success_log envAllOk "s" "CompleteAffiliateRegistration"
           h1 h2 h3 h4).2⟩

/-- Claim C4: when steps 1-3 succeed and only the non-critical
`register_metrics` step fails, all four steps are logged (metrics as
`FAILED`), no compensation entry is appended, the terminal
`saga_completed_final` entry is still written, the saga's final status is
`COMPLETED` and the orchestrator reports success. -/
theorem c4_noncritical_metrics_failure (env : GatewayEnv) (sid ty : String)
    (h1 : step1Ok env = true) (h2 : step2Ok env = true) (h3 : step3Ok env = true)
    (h4 : step4Ok env = false) :
    stepTrace (execute_complete_affiliate_registration env (start_saga sid ty)).1 =
      [("create_base_content", "COMPLETED"), ("create_affiliate", "COMPLETED"),
       ("create_collaboration", "COMPLETED"), ("register_metrics", "FAILED"),
       ("saga_completed_final", "COMPLETED")] ∧
    ((stepTrace (execute_complete_affiliate_registration env (start_saga sid ty)).1).all
      (fun p => !(strStartsWith p.1 "compensate_"))) = true ∧
    (execute_complete_affiliate_registration env (start_saga sid ty)).1.status =
      SagaStatus.COMPLETED ∧
    (execute_complete_affiliate_registration env (start_saga sid ty)).2 = true := by
  obtain ⟨htr, hst, hb⟩ := exec_fail4_trace env sid ty h1 h2 h3 h4
  refine ⟨htr, ?_, hst, hb⟩
  rw [htr]
  decide

/-- Witness for `c4_noncritical_metrics_failure` at the metrics-failure
environment. -/
theorem c4_noncritical_metrics_failure_witness :
    step1Ok envStep4Fails = true ∧ step2Ok envStep4Fails = true ∧
    step3Ok envStep4Fails = true ∧ step4Ok envStep4Fails = false ∧
    stepTrace (execute_complete_affiliate_registration envStep4Fails
        (start_saga "s" "CompleteAffiliateRegistration")).1 =
      [("create_base_content", "COMPLETED"), ("create_affiliate", "COMPLETED"),
       ("create_collaboration", "COMPLETED"), ("register_metrics", "FAILED"),
       ("saga_completed_final", "COMPLETED")] ∧
    (execute_complete_affiliate_registration envStep4Fails
        (start_saga "s" "CompleteAffiliateRegistration")).1.status =
      SagaStatus.COMPLETED := by
  have h1 : step1Ok envStep4Fails = true := by decide
  have h2 : step2Ok envStep4Fails = true := by decide
  have h3 : step3Ok envStep4Fails = true := by decide
  have h4 : step4Ok envStep4Fails = false := by decide
  obtain ⟨htr, hnc, hst, hb⟩ :=
    c4_noncritical_metrics_failure envStep4Fails "s" "CompleteAffiliateRegistration"
      h1 h2 h3 h4
  exact ⟨h1, h2, h3, h4, htr, hst⟩

/-- Claim C5, counterexample.  The claim states that appending a `COMPLETED`
step marks the saga `COMPLETED` only when the step's name is exactly
`saga_completed_final`.  In fact `log_step` checks `endswith("_final")`:
appending a `COMPLETED` step named `other_final` also marks the saga
`COMPLETED`. -/
theorem c5_completed_sentinel_counterexample :
    (log_step (start_saga "s" "t") "other_final" "COMPLETED" [] none).status =
      SagaStatus.COMPLETED ∧ "other_final" ≠ "saga_completed_final" := by
  decide

/-- Claim C5, amended: a `log_step` call with step status `COMPLETED` sets
the saga's stored status to `COMPLETED` if and only if the appended step's
name ends with the suffix `_final`. -/
theorem c5_completed_marks_saga_iff_final_suffix (saga : SagaModel) (name : String)
    (payload : Dict) (err : Option String) :
    (log_step saga name "COMPLETED" payload err).status = SagaStatus.COMPLETED ↔
      strEndsWith name "_final" = true := by
  cases h : strEndsWith name "_final" <;>
    simp [log_step, stepStatusUpdate, h]

/-- Claim C6: each invoked compensation of a previously completed step
appends exactly one step to the log — `compensate_create_content` for step 1
and `compensate_create_affiliate` for step 2 — with status `COMPLETED` when
the compensating gateway call succeeds and `FAILED` carrying the error
otherwise; and a failed compensation never aborts the remaining chain: the
step-1 compensation entry is appended after the step-2 one whatever the
outcome of either compensating call. -/
theorem c6_compensation_logged_per_step :
    (∀ (env : GatewayEnv) (saga : SagaModel) (d : Dict) (cid : String),
      Dict.lookupKey d "content_id" = some cid →
      stepTrace (compensate_step_1 env saga d) =
        stepTrace saga ++ [("compensate_create_content", compStatus env.delete_content)] ∧
      (∀ e : String, env.delete_content = Except.error e →
        (compensate_step_1 env saga d).steps.getLast? =
          some ⟨"compensate_create_content", "FAILED", [], some e⟩)) ∧
    (∀ (env : GatewayEnv) (saga : SagaModel) (d : Dict) (aid : String),
      Dict.lookupKey d "affiliate_id" = some aid →
      stepTrace (compensate_step_2 env saga d) =
        stepTrace saga ++
          [("compensate_create_affiliate", compStatus env.deactivate_affiliate)] ∧
      (∀ e : String, env.deactivate_affiliate = Except.error e →
        (compensate_step_2 env saga d).steps.getLast? =
          some ⟨"compensate_create_affiliate", "FAILED", [], some e⟩)) ∧
    (∀ (env : GatewayEnv) (saga : SagaModel) (d1 d2 : Dict) (cid aid : String),
      Dict.lookupKey d1 "content_id" = some cid →
      Dict.lookupKey d2 "affiliate_id" = some aid →
      stepTrace (compensate_step_1 env (compensate_step_2 env saga d2) d1) =
        stepTrace saga ++
          [("compensate_create_affiliate", compStatus env.deactivate_affiliate),
           ("compensate_create_content", compStatus env.delete_content)]) := by
  refine ⟨fun env saga d cid hd => ⟨?_, fun e he => ?_⟩,
          fun env saga d aid hd => ⟨?_, fun e he => ?_⟩,
          fun env saga d1 d2 cid aid hd1 hd2 => ?_⟩
  · cases hdel : env.delete_content <;>
      simp [compensate_step_1, log_step, stepTrace, compStatus, hd, hdel]
  · simp [compensate_step_1, log_step, hd, he]
  · cases hdea : env.deactivate_affiliate <;>
      simp [compensate_step_2, log_step, stepTrace, compStatus, hd, hdea]
  · simp [compensate_step_2, log_step, hd, he]
  · cases hdel : env.delete_content <;> cases hdea : env.deactivate_affiliate <;>
      simp [compensate_step_1, compensate_step_2, log_step, stepTrace, compStatus,
            hd1, hd2, hdel, hdea]

/-- Witness for `c6_compensation_logged_per_step`: both compensations of the
failing-collaboration run append their entries in reverse step order. -/
theorem c6_compensation_logged_per_step_witness :
    Dict.lookupKey [("content_id", "c1")] "content_id" = some "c1" ∧
    Dict.lookupKey [("affiliate_id", "a1")] "affiliate_id" = some "a1" ∧
    stepTrace (compensate_step_1 envStep3Fails
        (compensate_step_2 envStep3Fails (start_saga "s" "t") [("affiliate_id", "a1")])
        [("content_id", "c1")]) =
      stepTrace (start_saga "s" "t") ++
        [("compensate_create_affiliate", compStatus envStep3Fails.deactivate_affiliate),
         ("compensate_create_content", compStatus envStep3Fails.delete_content)] := by
  have hc : Dict.lookupKey [("content_id", "c1")] "content_id" = some "c1" := by decide
  have ha : Dict.lookupKey [("affiliate_id", "a1")] "affiliate_id" = some "a1" := by decide
  exact ⟨hc, ha,
    c6_compensation_logged_per_step.2.2 envStep3Fails (start_saga "s" "t") _ _ "c1" "a1"
      hc ha⟩

/-- Claim C7, counterexample.  The claim states that every `failed` event
with `retry_count < max_retries` whose backoff time has elapsed is reset to
`pending` by the retry pass.  `staleRow` satisfies all of that, yet the pass
leaves it `failed`, because the query additionally restricts to events
created within the last day (`created_at > utcnow() - timedelta(days=1)`)
and `staleRow` is older. -/
theorem c7_retry_reset_counterexample :
    staleRow.status = "failed" ∧ staleRow.retry_count < 5 ∧
    retryDue 200000 staleRow = true ∧
    retry_failed_events [staleRow] 200000 5 = [staleRow] ∧
    staleRow.status ≠ "pending" := by
  decide

/-- Claim C7, amended: every `failed` outbox event with
`retry_count < max_retries` that the retry query selects — which requires it
to be created within the last day and to be among the first 50 such events
in creation order — is reset to `pending` (with its error message cleared)
when its next eligible retry time `created_at + min(300, 2^retry_count)`
seconds has elapsed. -/
theorem c7_retry_resets_selected_due (rows : List OutboxRow) (now : Int)
    (max_retries : Nat) (e : OutboxRow)
    (hsel : e ∈ retrySelect rows now max_retries) (hdue : retryDue now e = true) :
    { e with status := "pending", error_message := none } ∈
      retry_failed_events rows now max_retries ∧
    e.status = "failed" ∧ e.retry_count < max_retries := by
  obtain ⟨hrows, hq⟩ := retrySelect_subset_filter rows now max_retries e hsel
  simp only [retryQueryFilter, Bool.and_eq_true, beq_iff_eq, decide_eq_true_eq] at hq
  refine ⟨?_, hq.1.1, hq.1.2⟩
  have hmem : (if e ∈ retrySelect rows now max_retries then retryUpdate now e else e) ∈
      retry_failed_events rows now max_retries := List.mem_map_of_mem _ hrows
  rw [if_pos hsel] at hmem
  simpa [retryUpdate, hdue] using hmem

/-- Witness for `c7_retry_resets_selected_due`: a due failed event inside
the one-day window is reset to pending. -/
theorem c7_retry_resets_selected_due_witness :
    freshRow ∈ retrySelect [freshRow] 200 5 ∧ retryDue 200 freshRow = true ∧
    { freshRow with status := "pending", error_message := none } ∈
      retry_failed_events [freshRow] 200 5 := by
  have hsel : freshRow ∈ retrySelect [freshRow] 200 5 := by decide
  have hdue : retryDue 200 freshRow = true := by decide
  exact ⟨hsel, hdue, (c7_retry_resets_selected_due [freshRow] 200 5 freshRow hsel hdue).1⟩

/-- Claim C8: a `failed` outbox event whose `retry_count` has reached
`max_retries` (including exactly `max_retries`) is never selected by the
retry query, so it is left exactly unchanged — still `failed` — by any
number of retry passes at any times. -/
theorem c8_exhausted_event_stays_failed (rows : List OutboxRow) (max_retries : Nat)
    (times : List Int) (i : Nat) (e : OutboxRow)
    (he : rows[i]? = some e) (hst : e.status = "failed")
    (hrc : max_retries ≤ e.retry_count) :
    (retryPasses rows max_retries times)[i]? = some e ∧ e.status = "failed" := by
  refine ⟨?_, hst⟩
  induction times generalizing rows with
  | nil => simpa [retryPasses] using he
  | cons t ts ih =>
    have h1 := retry_pass_keeps_exhausted rows t max_retries i e he hrc
    simpa [retryPasses] using ih _ h1

/-- Witness for `c8_exhausted_event_stays_failed` at the boundary
`retry_count = max_retries = 5`, across three retry passes. -/
theorem c8_exhausted_event_stays_failed_witness :
    exhaustedRow.retry_count = 5 ∧
    (retryPasses [exhaustedRow] 5 [120, 500, 100000])[0]? = some exhaustedRow ∧
    exhaustedRow.status = "failed" := by
  have h := c8_exhausted_event_stays_failed [exhaustedRow] 5 [120, 500, 100000] 0
    exhaustedRow (by decide) (by decide) (by decide)
  exact ⟨by decide, h.1, h.2⟩

/-- Claim C9: when the topic mapper yields no typed event for a message's
payload, `_process_message` acknowledges the message immediately — it never
negatively-acknowledges it (so the message is not redelivered) and never
invokes the domain handler. -/
theorem c9_unmappable_payload_acked (payload : Dict)
    (handler : AffiliateDomainEvent → Except PyError Unit)
    (h : map_affiliate_event payload = none) :
    process_message (map_affiliate_event payload) handler = [ConsumerEffect.acked] ∧
    ConsumerEffect.nacked ∉ process_message (map_affiliate_event payload) handler ∧
    ConsumerEffect.invokedHandler ∉ process_message (map_affiliate_event payload) handler := by
  rw [h]
  exact ⟨rfl, by simp [process_message], by simp [process_message]⟩

/-- Witness for `c9_unmappable_payload_acked`: a payload whose event type is
unknown to the affiliate mapper is acknowledged. -/
theorem c9_unmappable_payload_acked_witness :
    map_affiliate_event [("event_type", "ConversionRegistrada"), ("affiliate_id", "a1")] =
      none ∧
    process_message
      (map_affiliate_event [("event_type", "ConversionRegistrada"), ("affiliate_id", "a1")])
      (fun _ => Except.ok ()) = [ConsumerEffect.acked] := by
  have h : map_affiliate_event
      [("event_type", "ConversionRegistrada"), ("affiliate_id", "a1")] = none := by decide
  exact ⟨h, (c9_unmappable_payload_acked _ (fun _ => Except.ok ()) h).1⟩

/-- Claim C10: `get_saga` returns `none` both when the query raises (any
exception message) and when no row matches, and the saga-status endpoint
answers 404 in both cases — a store failure is indistinguishable from a
missing saga; a found saga yields 200. -/
theorem c10_get_saga_conflates_error_and_absence :
    (∀ e : String, get_saga (Except.error e) = none) ∧
    get_saga (Except.ok none) = none ∧
    (∀ e : String, get_saga_status_code (Except.error e) = 404) ∧
    get_saga_status_code (Except.ok none) = 404 ∧
    (∀ saga : SagaModel, get_saga (Except.ok (some saga)) = some saga ∧
      get_saga_status_code (Except.ok (some saga)) = 200) :=
  ⟨fun _ => rfl, rfl, fun _ => rfl, rfl, fun _ => ⟨rfl, rfl⟩⟩
